import Mathlib

/-!
Verification of the `levkk/Rocket` fragment: the mTLS `Certificate` request
guard (`src/core/lib/src/mtls.rs`) and the `rocket_db_pools` glue crate
(`src/contrib/db_pools/lib/src/lib.rs`).

The mTLS guard is embedded directly from the source.  The external pieces it
calls (`chain_data`, `Certificate::parse`, both defined outside this
repository fragment in `crate::http::tls::mtls`) are taken as parameters, so
theorems quantify over every possible behaviour of those externals.

The `rocket_db_pools` crate's `config.rs`, `pool.rs` and `database.rs`
modules are declared but not present in the fragment; those parts are
modelled from the specification, as noted in their doc comments.
-/

namespace Rocket

/-- HTTP status, as in `rocket::http::Status`: a numeric code. -/
structure Status where
  code : Nat
deriving DecidableEq, Repr

/-- `Status::Unauthorized` (code 401). -/
def Status.unauthorized : Status := ⟨401⟩

/-- `rocket::outcome::Outcome<S, (Status, E), Status>`, the outcome type of a
request guard: `Success(S)`, `Error((Status, E))`, or `Forward(Status)`. -/
inductive Outcome (σ ε : Type) where
  | success : σ → Outcome σ ε
  | error : Status → ε → Outcome σ ε
  | forward : Status → Outcome σ ε
deriving DecidableEq, Repr

/-- `IntoOutcome::or_forward` on `Option`: `Some(v)` becomes `Success(v)`,
`None` becomes `Forward(status)`. -/
def or_forward : Option σ → Status → Outcome σ ε
  | some v, _ => .success v
  | none, s => .forward s

/-- `IntoOutcome::or_error` on `Result`: `Ok(v)` becomes `Success(v)`,
`Err(e)` becomes `Error((status, e))`. -/
def or_error : Except ε σ → Status → Outcome σ ε
  | .ok v, _ => .success v
  | .error e, s => .error s e

/-- The `try_outcome!` macro: unwrap a `Success`, otherwise return the
`Error` or `Forward` early. -/
def try_outcome : Outcome α ε → (α → Outcome β ε) → Outcome β ε
  | .success v, f => f v
  | .error s e, _ => .error s e
  | .forward s, _ => .forward s

/-- The connection state of a request that the guard reads:
`req.connection.client_certificates`, an optional certificate chain.
The chain's representation (type `χ`) is external to the fragment. -/
structure Connection (χ : Type) where
  client_certificates : Option χ
deriving DecidableEq, Repr

/-- A request.  The `Certificate` guard reads only
`req.connection.client_certificates`; the rest of the request (method, URI,
headers, ...) is abstracted as a field `rest` of arbitrary type `ρ`. -/
structure Request (χ ρ : Type) where
  connection : Connection χ
  rest : ρ
deriving DecidableEq, Repr

/-- `<Certificate as FromRequest>::from_request` from
`src/core/lib/src/mtls.rs`, the single request-guard implementation of the
fragment.  `chain_data` and `parse` are the external functions
`CertificateDer::chain_data` and `Certificate::parse` (defined outside the
fragment), passed as parameters. -/
def from_request (chain_data : χ → Option δ) (parse : δ → Except ε σ)
    (req : Request χ ρ) : Outcome σ ε :=
  let certs := or_forward req.connection.client_certificates Status.unauthorized
  try_outcome certs fun certs =>
    try_outcome (or_forward (chain_data certs) Status.unauthorized) fun data =>
      or_error (parse data) Status.unauthorized

/-- C1: for every request whose connection presents client certificates with
available chain data, the `Certificate` guard's `from_request` returns exactly
the result of `Certificate::parse` applied to that chain data, packaged into
an outcome by `or_error Status.unauthorized`: `Success` of the parsed
certificate when the parser succeeds, `Error` with the parser's error when it
fails.  The guard performs no validation of its own, only forwarding. -/
theorem certificate_guard_forwards_to_parse
    (chain_data : χ → Option δ) (parse : δ → Except ε σ) (req : Request χ ρ)
    (certs : χ) (data : δ)
    (hc : req.connection.client_certificates = some certs)
    (hd : chain_data certs = some data) :
    from_request chain_data parse req = or_error (parse data) Status.unauthorized
      ∧ (∀ c, parse data = .ok c →
          from_request chain_data parse req = .success c)
      ∧ (∀ e, parse data = .error e →
          from_request chain_data parse req = .error Status.unauthorized e) := by
  refine ⟨?_, ?_, ?_⟩
  · simp [from_request, or_forward, try_outcome, hc, hd]
  · intro c hp
    simp [from_request, or_forward, try_outcome, or_error, hc, hd, hp]
  · intro e hp
    simp [from_request, or_forward, try_outcome, or_error, hc, hd, hp]

/-- Witness for C1 at a concrete input: certificates `some 5`, chain data
`some 6`, a parser that succeeds with its input. -/
theorem certificate_guard_forwards_to_parse_witness :
    from_request (fun n : Nat => some (n + 1)) (fun d : Nat => (.ok d : Except Nat Nat))
        (Request.mk (Connection.mk (some 5)) ())
      = or_error (.ok 6) Status.unauthorized :=
  (certificate_guard_forwards_to_parse (fun n : Nat => some (n + 1))
    (fun d : Nat => (.ok d : Except Nat Nat))
    (Request.mk (Connection.mk (some 5)) ()) 5 6 rfl rfl).1

/-- C2: when the connection presents no client certificates, or presents
certificates whose chain data cannot be obtained (`chain_data` returns
`none`), `from_request` returns `Forward(Status::Unauthorized)` — neither a
`Success` nor an `Error`. -/
theorem certificate_guard_missing_forwards
    (chain_data : χ → Option δ) (parse : δ → Except ε σ) (req : Request χ ρ)
    (h : req.connection.client_certificates = none ∨
      ∃ certs, req.connection.client_certificates = some certs ∧
        chain_data certs = none) :
    from_request chain_data parse req = .forward Status.unauthorized := by
  rcases h with h | ⟨certs, hc, hd⟩
  · simp [from_request, or_forward, try_outcome, h]
  · simp [from_request, or_forward, try_outcome, hc, hd]

/-- Witness for C2 at concrete inputs: a request with no client certificates,
and a request whose certificates have no chain data. -/
theorem certificate_guard_missing_forwards_witness :
    from_request (fun n : Nat => some (n + 1)) (fun d : Nat => (.ok d : Except Nat Nat))
        (Request.mk (Connection.mk (none : Option Nat)) ())
      = .forward Status.unauthorized
    ∧ from_request (fun _ : Nat => (none : Option Nat))
        (fun d : Nat => (.ok d : Except Nat Nat))
        (Request.mk (Connection.mk (some 5)) ())
      = .forward Status.unauthorized :=
  ⟨certificate_guard_missing_forwards (fun n : Nat => some (n + 1))
      (fun d : Nat => (.ok d : Except Nat Nat))
      (Request.mk (Connection.mk (none : Option Nat)) ()) (Or.inl rfl),
    certificate_guard_missing_forwards (fun _ : Nat => (none : Option Nat))
      (fun d : Nat => (.ok d : Except Nat Nat))
      (Request.mk (Connection.mk (some 5)) ()) (Or.inr ⟨5, rfl, rfl⟩)⟩

/-- C3: every non-success outcome of the guard carries
`Status::Unauthorized`: either the guard succeeds, or it forwards with
`Unauthorized` (missing certificates or missing chain data), or it errors
with `Unauthorized` paired with exactly the parser's error value. -/
theorem certificate_guard_nonsuccess_unauthorized
    (chain_data : χ → Option δ) (parse : δ → Except ε σ) (req : Request χ ρ) :
    (∃ c, from_request chain_data parse req = .success c) ∨
    from_request chain_data parse req = .forward Status.unauthorized ∨
    (∃ e certs data, req.connection.client_certificates = some certs ∧
      chain_data certs = some data ∧ parse data = .error e ∧
      from_request chain_data parse req = .error Status.unauthorized e) := by
  rcases hc : req.connection.client_certificates with _ | certs
  · exact Or.inr (Or.inl (by simp [from_request, or_forward, try_outcome, hc]))
  · rcases hd : chain_data certs with _ | data
    · exact Or.inr (Or.inl (by simp [from_request, or_forward, try_outcome, hc, hd]))
    · rcases hp : parse data with e | c
      · exact Or.inr (Or.inr ⟨e, certs, data, by simp [hc], by simp [hd], by simp [hp],
          by simp [from_request, or_forward, try_outcome, or_error, hc, hd, hp]⟩)
      · exact Or.inl ⟨c,
          by simp [from_request, or_forward, try_outcome, or_error, hc, hd, hp]⟩

/-- C9: the guard is deterministic and reads only the client-certificate
connection state: any two requests with identical `client_certificates`
produce identical outcomes, whatever the rest of each request holds. -/
theorem certificate_guard_deterministic
    (chain_data : χ → Option δ) (parse : δ → Except ε σ)
    (req₁ : Request χ ρ₁) (req₂ : Request χ ρ₂)
    (h : req₁.connection.client_certificates = req₂.connection.client_certificates) :
    from_request chain_data parse req₁ = from_request chain_data parse req₂ := by
  simp [from_request, h]

/-- Witness for C9 at concrete inputs: two requests with equal certificate
state but different remaining request data produce the same outcome. -/
theorem certificate_guard_deterministic_witness :
    from_request (fun n : Nat => some (n + 1)) (fun d : Nat => (.ok d : Except Nat Nat))
        (Request.mk (Connection.mk (some 5)) "GET /a")
      = from_request (fun n : Nat => some (n + 1)) (fun d : Nat => (.ok d : Except Nat Nat))
        (Request.mk (Connection.mk (some 5)) (42 : Nat)) :=
  certificate_guard_deterministic (fun n : Nat => some (n + 1))
    (fun d : Nat => (.ok d : Except Nat Nat))
    (Request.mk (Connection.mk (some 5)) "GET /a")
    (Request.mk (Connection.mk (some 5)) (42 : Nat)) rfl

end Rocket

namespace RocketDbPools

/-- Modelled from the spec: the raw `databases.db_name` configuration
parameters (module `config.rs` is absent from the fragment).  Per the crate
docs, only `url` is required; the remaining parameters have defaults and are
optional. -/
structure RawConfig where
  url : Option String
  min_connections : Option Nat
  max_connections : Option Nat
  connect_timeout : Option Nat
  idle_timeout : Option Nat
deriving DecidableEq, Repr

/-- Modelled from the spec: the `Config` structure (module `config.rs` is
absent from the fragment): pool size bounds (minimum and maximum connection
counts), timeouts, and a connection URL. -/
structure Config where
  url : String
  min_connections : Option Nat
  max_connections : Nat
  connect_timeout : Nat
  idle_timeout : Option Nat
deriving DecidableEq, Repr

/-- Modelled from the spec: deserialization of raw parameters into `Config`
(module `config.rs` is absent from the fragment).  `dflt_max` and
`dflt_timeout` are the crate's defaults for the optional `max_connections`
and `connect_timeout` parameters; `min_connections` and `idle_timeout` stay
optional.  Deserialization fails when the required `url` is missing. -/
def Config.deserialize (dflt_max dflt_timeout : Nat) (raw : RawConfig) :
    Option Config :=
  raw.url.map fun u =>
    { url := u
      min_connections := raw.min_connections
      max_connections := raw.max_connections.getD dflt_max
      connect_timeout := raw.connect_timeout.getD dflt_timeout
      idle_timeout := raw.idle_timeout }

/-- Modelled from the spec: a database's configuration is read from the
`databases.db_name` configuration parameter; `dbs` maps database names to
their raw parameter tables. -/
def configFor (dbs : String → Option RawConfig) (dflt_max dflt_timeout : Nat)
    (name : String) : Option Config :=
  (dbs name).bind (Config.deserialize dflt_max dflt_timeout)

/-- Modelled from the spec: the interface of an underlying driver crate's
pool (an external library; module `pool.rs`, which binds to it, is absent
from the fragment).  `π` is the driver's pool type, `κ` its connection type,
`ε` its error type. -/
structure Driver (π κ ε : Type) where
  init : Config → Except ε π
  get : π → Except ε κ
  close : π → π

/-- Modelled from the spec: an implementation of the crate's `Pool` trait —
a single associated `Connection` type together with `init`/`get`/`close`
operations (module `pool.rs` is absent from the fragment). -/
structure PoolImpl (π ε : Type) where
  Connection : Type
  init : Config → Except ε π
  get : π → Except ε Connection
  close : π → π

/-- Modelled from the spec: the crate's `Pool` implementation for a driver
forwards each operation to the underlying driver's pool and exposes the
driver's own connection type, with no pooling logic of its own. -/
def PoolImpl.ofDriver (d : Driver π κ ε) : PoolImpl π ε :=
  { Connection := κ
    init := d.init
    get := d.get
    close := d.close }

/-- Modelled from the spec: the Rocket-managed state the fairing touches —
the database pool, present once initialized. -/
structure RocketState (π : Type) where
  pool : Option π
deriving DecidableEq, Repr

/-- Modelled from the spec: a fairing, as registered on a Rocket instance:
an initialization hook run at launch (which may abort the launch) and a
shutdown hook run when Rocket shuts down (module `database.rs`, which
defines the fairing, is absent from the fragment). -/
structure Fairing (σ : Type) where
  on_ignite : σ → Option σ
  on_shutdown : σ → σ

/-- Modelled from the spec: `Database::init()` returns the fairing that the
application attaches: its initialization hook creates the pool through the
crate's `Pool` implementation on the database's configuration and stores it;
its shutdown hook closes the stored pool (module `database.rs` is absent
from the fragment). -/
def Database.init (d : Driver π κ ε) (cfg : Config) : Fairing (RocketState π) :=
  { on_ignite := fun _ => ((PoolImpl.ofDriver d).init cfg).toOption.map
      fun p => { pool := some p }
    on_shutdown := fun s => { pool := s.pool.map (PoolImpl.ofDriver d).close } }

/-- Modelled from the spec: the launch of a Rocket instance runs the
attached fairing's initialization hook on the initial state, in which no
pool exists yet. -/
def launch (f : Fairing (RocketState π)) : Option (RocketState π) :=
  f.on_ignite { pool := none }

/-- Modelled from the spec: Rocket's shutdown runs the attached fairing's
shutdown hook on the current state. -/
def run_shutdown (f : Fairing (RocketState π)) (s : RocketState π) :
    RocketState π :=
  f.on_shutdown s

/-- An observable operation against a database pool: initialize the pool
from configuration, acquire a connection, or close the pool. -/
inductive Op where
  | init_pool (cfg : Config)
  | get_conn
  | close_pool
deriving DecidableEq, Repr

/-- A run state: the pool, if initialized, paired with the (reversed) list
of observed results of connection acquisitions. -/
structure Trace (π κ ε : Type) where
  pool : Option π
  events : List (Except ε κ)

/-- Modelled from the spec: one step of the crate's exposed operations —
every call goes through the crate's `Pool` implementation for the driver
(`PoolImpl.ofDriver`). -/
def crateStep (d : Driver π κ ε) (t : Trace π κ ε) : Op → Trace π κ ε
  | .init_pool cfg =>
    match (PoolImpl.ofDriver d).init cfg with
    | .ok p => { t with pool := some p }
    | .error _ => { t with pool := none }
  | .get_conn =>
    match t.pool with
    | some p => { t with events := (PoolImpl.ofDriver d).get p :: t.events }
    | none => t
  | .close_pool => { t with pool := t.pool.map (PoolImpl.ofDriver d).close }

/-- Follows the specification's words for the refinement claim C7: the same
operations performed directly against the wrapped driver crate's own pool,
the behaviour the crate is claimed to equal. -/
def driverStep (d : Driver π κ ε) (t : Trace π κ ε) : Op → Trace π κ ε
  | .init_pool cfg =>
    match d.init cfg with
    | .ok p => { t with pool := some p }
    | .error _ => { t with pool := none }
  | .get_conn =>
    match t.pool with
    | some p => { t with events := d.get p :: t.events }
    | none => t
  | .close_pool => { t with pool := t.pool.map d.close }

/-- Run a sequence of operations through the crate's exposed interface. -/
def crateRun (d : Driver π κ ε) (t : Trace π κ ε) (ops : List Op) : Trace π κ ε :=
  ops.foldl (crateStep d) t

/-- Run the same sequence of operations directly against the driver. -/
def driverRun (d : Driver π κ ε) (t : Trace π κ ε) (ops : List Op) : Trace π κ ε :=
  ops.foldl (driverStep d) t

/-- A predicate on pool state is an invariant of a pool interface when every
pool produced by its `init` satisfies it and its `close` preserves it. -/
def IsInvariant (ini : Config → Except ε π) (clo : π → π) (I : π → Prop) : Prop :=
  (∀ cfg p, ini cfg = .ok p → I p) ∧ (∀ p, I p → I (clo p))

/-- A concrete driver over `Nat` pool states, used by witnesses. -/
def natDriver : Driver Nat Nat Nat :=
  { init := fun cfg => .ok cfg.max_connections
    get := fun p => .ok p
    close := fun p => p + 1 }

/-- A concrete configuration, used by witnesses. -/
def cfg₀ : Config :=
  { url := "db.sqlite"
    min_connections := none
    max_connections := 7
    connect_timeout := 5
    idle_timeout := some 120 }

/-- Each step through the crate's interface equals the step performed
directly against the driver. -/
theorem crateStep_eq_driverStep (d : Driver π κ ε) (t : Trace π κ ε) (op : Op) :
    crateStep d t op = driverStep d t op := by
  cases op <;> rfl

/-- C4: a database's configuration is read from the `databases.db_name`
parameter and deserialized into `Config`; deserialization succeeds exactly
when the required `url` is present, carrying over the pool size bounds and
timeouts (with defaults where omitted); and a `Config`'s state consists of
exactly the pool size bounds, the timeouts, and the connection URL. -/
theorem config_read_and_state (dbs : String → Option RawConfig)
    (dflt_max dflt_timeout : Nat) (name : String) :
    configFor dbs dflt_max dflt_timeout name
      = (dbs name).bind (Config.deserialize dflt_max dflt_timeout) ∧
    (∀ raw : RawConfig, ∀ c : Config,
      Config.deserialize dflt_max dflt_timeout raw = some c ↔
        (raw.url = some c.url ∧
         raw.min_connections = c.min_connections ∧
         raw.max_connections.getD dflt_max = c.max_connections ∧
         raw.connect_timeout.getD dflt_timeout = c.connect_timeout ∧
         raw.idle_timeout = c.idle_timeout)) ∧
    (∀ c : Config, c = ⟨c.url, c.min_connections, c.max_connections,
        c.connect_timeout, c.idle_timeout⟩) := by
  refine ⟨rfl, ?_, fun c => rfl⟩
  intro raw c
  cases c
  cases hr : raw.url <;>
    simp [Config.deserialize, hr, Config.mk.injEq]

/-- C5: the `Pool` trait's data is exactly one associated `Connection` type
together with `init`/`get`/`close` operations, and the crate's implementation
for a driver forwards each of them to the underlying driver's pool: the
exposed connection type is the driver's and each operation equals the
driver's. -/
theorem pool_trait_forwards_to_driver (d : Driver π κ ε) :
    (PoolImpl.ofDriver d).Connection = κ ∧
    (PoolImpl.ofDriver d).init = d.init ∧
    (PoolImpl.ofDriver d).get = d.get ∧
    (PoolImpl.ofDriver d).close = d.close ∧
    ∀ P : PoolImpl π ε, P = ⟨P.Connection, P.init, P.get, P.close⟩ :=
  ⟨rfl, rfl, rfl, rfl, fun _ => rfl⟩

/-- C6: attaching a database type's `init()` registers a fairing whose
initialization hook creates the database pool at launch — storing the pool
the driver's `init` built from the configuration — and whose shutdown hook
closes the stored pool with the driver's `close` when Rocket shuts down. -/
theorem initializer_fairing_lifecycle (d : Driver π κ ε) (cfg : Config)
    (p : π) (h : d.init cfg = .ok p) :
    launch (Database.init d cfg) = some { pool := some p } ∧
    ∀ s : RocketState π,
      run_shutdown (Database.init d cfg) s = { pool := s.pool.map d.close } := by
  refine ⟨?_, fun s => rfl⟩
  simp [launch, Database.init, PoolImpl.ofDriver, h, Except.toOption]

/-- Witness for C6 at a concrete input: the `Nat` driver initialized from
the concrete configuration stores pool `7` at launch, and shutting down with
pool `7` stored closes it to `8`. -/
theorem initializer_fairing_lifecycle_witness :
    natDriver.init cfg₀ = .ok 7 ∧
    launch (Database.init natDriver cfg₀) = some { pool := some 7 } ∧
    run_shutdown (Database.init natDriver cfg₀) { pool := some 7 }
      = { pool := some 8 } :=
  ⟨rfl, (initializer_fairing_lifecycle natDriver cfg₀ 7 rfl).1,
    (initializer_fairing_lifecycle natDriver cfg₀ 7 rfl).2 { pool := some 7 }⟩

/-- C7: every behaviour observable through the crate's operations equals the
behaviour of the corresponding operations of the wrapped driver: any
sequence of pool operations run through the crate's interface produces
exactly the state and observation trace of the same sequence run directly
against the driver. -/
theorem crate_run_refines_driver_run (d : Driver π κ ε) (t : Trace π κ ε)
    (ops : List Op) : crateRun d t ops = driverRun d t ops := by
  induction ops generalizing t with
  | nil => rfl
  | cons op rest ih =>
    show crateRun d (crateStep d t op) rest = driverRun d (driverStep d t op) rest
    rw [crateStep_eq_driverStep]
    exact ih _

/-- C8: no invariant originates in the crate's own operations: a predicate
on pool state is an invariant of the crate's exposed `init`/`close` exactly
when it is an invariant of the wrapped driver's, and a predicate on run
states is preserved by every crate step exactly when it is preserved by
every direct driver step. -/
theorem no_invariants_of_own (d : Driver π κ ε) :
    (∀ I : π → Prop,
      IsInvariant (PoolImpl.ofDriver d).init (PoolImpl.ofDriver d).close I ↔
        IsInvariant d.init d.close I) ∧
    (∀ J : Trace π κ ε → Prop,
      (∀ t op, J t → J (crateStep d t op)) ↔
        (∀ t op, J t → J (driverStep d t op))) := by
  refine ⟨fun I => Iff.rfl, fun J => ⟨fun h t op ht => ?_, fun h t op ht => ?_⟩⟩
  · have hj := h t op ht
    rwa [crateStep_eq_driverStep] at hj
  · have hj := h t op ht
    rwa [← crateStep_eq_driverStep] at hj

end RocketDbPools
